import Mathlib

/-!
Shallow embedding of the fleet-provisioning and device-shadow demo workflows of
the esp-aws-iot fleet-provisioning examples.  The definitions below are
translated from the C sources under `examples/fleet_prov_simple`,
`examples/fleet_prov_simple_nvs` and `examples/fleet_prov_by_claim_pkcs11`;
external collaborators (coreMQTT transport, tinyCBOR codec, coreJSON, NVS) are
modelled at their call interfaces.
-/

/-- C standard exit code for success, as used by the demos. -/
def EXIT_SUCCESS : Int := 0

/-- C standard exit code for failure, as used by the demos. -/
def EXIT_FAILURE : Int := 1

/-- Type `ResponseStatus_t`: status values of the Fleet Provisioning response
(`shadow_demo_main.c`, `fleet_prov_by_claim_demo.c`). -/
inductive ResponseStatus where
  | notReceived
  | accepted
  | rejected
deriving DecidableEq, Repr

/-- Result enumeration of `FleetProvisioning_MatchTopic` (collaborator interface). -/
inductive FleetProvisioningStatus where
  | success
  | noMatch
  | fpError
  | badParameter
  | bufferTooSmall
deriving DecidableEq, Repr

/-- Type `FleetProvisioningTopic_t`: the values the demo callbacks distinguish. -/
inductive FleetProvisioningTopic where
  | createKeysAndCertAccepted
  | createKeysAndCertRejected
  | registerThingAccepted
  | registerThingRejected
  | otherTopic
deriving DecidableEq, Repr

/-- One inbound MQTT packet as seen by `provisioningPublishCallback`: whether
the packet type masks to `MQTT_PACKET_TYPE_PUBLISH`, the result of
`FleetProvisioning_MatchTopic` on its topic, the matched API, and the payload
bytes. -/
structure IncomingPublish where
  isPublishPacket : Bool
  matchStatus : FleetProvisioningStatus
  api : FleetProvisioningTopic
  payload : List Nat
deriving DecidableEq, Repr

/-- The static module state touched by the provisioning callback:
`responseStatus`, `payloadBuffer` and `payloadLength`. -/
structure ProvCallbackState where
  responseStatus : ResponseStatus
  payloadBuffer : List Nat
  payloadLength : Nat
deriving DecidableEq, Repr

/-- Function `provisioningPublishCallback` (`fleet_prov_simple_nvs/main/shadow_demo_main.c`):
on an accepted CreateKeysAndCertificate or RegisterThing response it sets
`responseStatus := ResponseAccepted` and copies the payload into
`payloadBuffer`, recording its length; on a rejected response it only sets
`responseStatus := ResponseRejected`; every other packet leaves the state
unchanged. -/
def provisioningPublishCallback (st : ProvCallbackState) (msg : IncomingPublish) :
    ProvCallbackState :=
  if msg.isPublishPacket then
    if msg.matchStatus = .success then
      match msg.api with
      | .createKeysAndCertAccepted =>
          { responseStatus := .accepted
            payloadBuffer := msg.payload
            payloadLength := msg.payload.length }
      | .createKeysAndCertRejected => { st with responseStatus := .rejected }
      | .registerThingAccepted =>
          { responseStatus := .accepted
            payloadBuffer := msg.payload
            payloadLength := msg.payload.length }
      | .registerThingRejected => { st with responseStatus := .rejected }
      | .otherTopic => st
    else st
  else st

/-- Function `ProcessLoop` (transport collaborator): drives inbound delivery, invoking
the registered callback once per delivered message. -/
def ProcessLoop (st : ProvCallbackState) (msgs : List IncomingPublish) :
    ProvCallbackState :=
  msgs.foldl provisioningPublishCallback st

/-- Function `waitForResponse` (`shadow_demo_main.c` and `fleet_prov_by_claim_demo.c`):
initialises `returnStatus` to `EXIT_SUCCESS`, resets `responseStatus` to
`ResponseNotReceived`, runs the process loop, logs on timeout, and sets
`returnStatus := EXIT_SUCCESS` again when the response was accepted. -/
def waitForResponse (st : ProvCallbackState) (msgs : List IncomingPublish) :
    ProvCallbackState × Int :=
  Id.run do
    let mut returnStatus := EXIT_SUCCESS
    let st1 := { st with responseStatus := ResponseStatus.notReceived }
    let st2 := ProcessLoop st1 msgs
    if st2.responseStatus = ResponseStatus.accepted then
      returnStatus := EXIT_SUCCESS
    return (st2, returnStatus)

/-- Classification of one inbound packet by the callback: `some .accepted` or
`some .rejected` when it is a publish matching one of the four provisioning
response topics, `none` otherwise. -/
def classifyMsg (msg : IncomingPublish) : Option ResponseStatus :=
  if msg.isPublishPacket ∧ msg.matchStatus = .success then
    match msg.api with
    | .createKeysAndCertAccepted => some .accepted
    | .registerThingAccepted => some .accepted
    | .createKeysAndCertRejected => some .rejected
    | .registerThingRejected => some .rejected
    | .otherTopic => none
  else none

/-- The empty initial callback state. -/
def initialProvState : ProvCallbackState :=
  { responseStatus := .notReceived, payloadBuffer := [], payloadLength := 0 }

/-- A matching rejected CreateKeysAndCertificate response packet. -/
def rejectedCreateKeysMsg : IncomingPublish :=
  { isPublishPacket := true
    matchStatus := .success
    api := .createKeysAndCertRejected
    payload := [7, 7] }

/-- A matching accepted CreateKeysAndCertificate response packet. -/
def acceptedCreateKeysMsg : IncomingPublish :=
  { isPublishPacket := true
    matchStatus := .success
    api := .createKeysAndCertAccepted
    payload := [1, 2, 3] }

lemma provisioningPublishCallback_of_classify_none (st : ProvCallbackState)
    (msg : IncomingPublish) (h : classifyMsg msg = none) :
    provisioningPublishCallback st msg = st := by
  unfold classifyMsg at h
  unfold provisioningPublishCallback
  by_cases h1 : msg.isPublishPacket
  · by_cases h2 : msg.matchStatus = FleetProvisioningStatus.success
    · simp [h1, h2] at h ⊢
      cases hapi : msg.api <;> simp [hapi] at h ⊢
    · simp [h1, h2]
  · simp [h1]

lemma ProcessLoop_of_no_classify (msgs : List IncomingPublish)
    (st : ProvCallbackState) (h : ∀ m ∈ msgs, classifyMsg m = none) :
    ProcessLoop st msgs = st := by
  induction msgs generalizing st with
  | nil => rfl
  | cons m ms ih =>
      have hm : classifyMsg m = none := h m (List.mem_cons_self m ms)
      have hms : ∀ x ∈ ms, classifyMsg x = none := fun x hx => h x (List.mem_cons_of_mem m hx)
      unfold ProcessLoop
      simp only [List.foldl_cons]
      rw [provisioningPublishCallback_of_classify_none st m hm]
      exact ih st hms

lemma ProcessLoop_append (st : ProvCallbackState) (ms1 ms2 : List IncomingPublish) :
    ProcessLoop st (ms1 ++ ms2) = ProcessLoop (ProcessLoop st ms1) ms2 := by
  unfold ProcessLoop
  exact List.foldl_append _ _ _ _

lemma waitForResponse_fst (st : ProvCallbackState) (msgs : List IncomingPublish) :
    (waitForResponse st msgs).1
      = ProcessLoop { st with responseStatus := ResponseStatus.notReceived } msgs := by
  unfold waitForResponse
  simp only [Id.run]
  split <;> rfl

/-- C2: the spec claims `waitForResponse` returns a failure status on both a
timeout (`ResponseNotReceived`) and a rejection (`ResponseRejected`).  In the
source `returnStatus` is initialised to `EXIT_SUCCESS` and is never set to
`EXIT_FAILURE`, so the wait reports success for a rejected response and for a
timeout alike, and the subsequent workflow steps are not aborted. -/
theorem waitForResponse_success_on_reject_and_timeout :
    (waitForResponse initialProvState [rejectedCreateKeysMsg]).1.responseStatus
        = ResponseStatus.rejected ∧
    (waitForResponse initialProvState [rejectedCreateKeysMsg]).2 = EXIT_SUCCESS ∧
    (waitForResponse initialProvState []).1.responseStatus
        = ResponseStatus.notReceived ∧
    (waitForResponse initialProvState []).2 = EXIT_SUCCESS := by
  refine ⟨?_, ?_, ?_, ?_⟩ <;> rfl

/-- C9: on a matching accepted provisioning response the callback copies the
full payload into the retained `payloadBuffer` and records its length (so by
the time `waitForResponse` returns, the buffer holds the accepted payload);
on a matching rejected response it leaves `payloadBuffer` and `payloadLength`
unchanged and only sets the outcome flag. -/
theorem callback_copies_payload_on_accept_only (st : ProvCallbackState)
    (msg : IncomingPublish) (hpub : msg.isPublishPacket = true)
    (hmatch : msg.matchStatus = FleetProvisioningStatus.success) :
    ((msg.api = .createKeysAndCertAccepted ∨ msg.api = .registerThingAccepted) →
        (provisioningPublishCallback st msg).payloadBuffer = msg.payload ∧
        (provisioningPublishCallback st msg).payloadLength = msg.payload.length ∧
        (provisioningPublishCallback st msg).responseStatus = .accepted) ∧
    ((msg.api = .createKeysAndCertRejected ∨ msg.api = .registerThingRejected) →
        (provisioningPublishCallback st msg).payloadBuffer = st.payloadBuffer ∧
        (provisioningPublishCallback st msg).payloadLength = st.payloadLength ∧
        (provisioningPublishCallback st msg).responseStatus = .rejected) ∧
    (∀ pre : List IncomingPublish,
        (msg.api = .createKeysAndCertAccepted ∨ msg.api = .registerThingAccepted) →
        (waitForResponse st (pre ++ [msg])).1.payloadBuffer = msg.payload ∧
        (waitForResponse st (pre ++ [msg])).1.payloadLength = msg.payload.length) := by
  refine ⟨?_, ?_, ?_⟩
  · rintro (hapi | hapi) <;>
      simp [provisioningPublishCallback, hpub, hmatch, hapi]
  · rintro (hapi | hapi) <;>
      simp [provisioningPublishCallback, hpub, hmatch, hapi]
  · intro pre hapi
    have hlast : ∀ s : ProvCallbackState,
        (provisioningPublishCallback s msg).payloadBuffer = msg.payload ∧
        (provisioningPublishCallback s msg).payloadLength = msg.payload.length := by
      intro s
      rcases hapi with hapi | hapi <;>
        simp [provisioningPublishCallback, hpub, hmatch, hapi]
    rw [waitForResponse_fst, ProcessLoop_append]
    have hstep : ProcessLoop (ProcessLoop { st with responseStatus := ResponseStatus.notReceived } pre) [msg]
        = provisioningPublishCallback (ProcessLoop { st with responseStatus := ResponseStatus.notReceived } pre) msg := rfl
    rw [hstep]
    exact hlast (ProcessLoop { st with responseStatus := ResponseStatus.notReceived } pre)

/-- C10: `waitForResponse` resets the shared `responseStatus` to
`ResponseNotReceived` before driving the process loop, so its outcome is
independent of any stale value left by a previous exchange; and the outcome
differs from `ResponseNotReceived` only when some delivered packet was
classified by the callback as a matching accepted or rejected response. -/
theorem waitForResponse_resets_correlation_state (st : ProvCallbackState)
    (stale : ResponseStatus) (msgs : List IncomingPublish) :
    (waitForResponse { st with responseStatus := stale } msgs)
        = (waitForResponse st msgs) ∧
    ((waitForResponse st msgs).1.responseStatus ≠ ResponseStatus.notReceived →
        ∃ m ∈ msgs, classifyMsg m ≠ none) := by
  constructor
  · rfl
  · intro hne
    by_contra hall
    push_neg at hall
    have h0 : ∀ m ∈ msgs, classifyMsg m = none := by
      intro m hm
      have := hall m hm
      exact not_not.mp (by simpa using this)
    have : (waitForResponse st msgs).1.responseStatus = ResponseStatus.notReceived := by
      rw [waitForResponse_fst, ProcessLoop_of_no_classify msgs _ h0]
    exact hne this

/-- Witness for the C9 theorem at a concrete accepted packet. -/
theorem callback_copies_payload_on_accept_only_witness :
    acceptedCreateKeysMsg.isPublishPacket = true ∧
    acceptedCreateKeysMsg.matchStatus = FleetProvisioningStatus.success ∧
    ((provisioningPublishCallback initialProvState acceptedCreateKeysMsg).payloadBuffer
          = acceptedCreateKeysMsg.payload ∧
      (provisioningPublishCallback initialProvState acceptedCreateKeysMsg).payloadLength
          = acceptedCreateKeysMsg.payload.length ∧
      (provisioningPublishCallback initialProvState acceptedCreateKeysMsg).responseStatus
          = .accepted) :=
  ⟨rfl, rfl,
    (callback_copies_payload_on_accept_only initialProvState acceptedCreateKeysMsg
      rfl rfl).1 (Or.inl rfl)⟩

/-- Witness for the C10 theorem at a concrete message list. -/
theorem waitForResponse_resets_correlation_state_witness :
    (waitForResponse initialProvState [acceptedCreateKeysMsg]).1.responseStatus
        ≠ ResponseStatus.notReceived ∧
    ∃ m ∈ [acceptedCreateKeysMsg], classifyMsg m ≠ none :=
  ⟨by decide,
    (waitForResponse_resets_correlation_state initialProvState ResponseStatus.rejected
      [acceptedCreateKeysMsg]).2 (by decide)⟩

/-!
Device-shadow message handlers (`fleet_prov_simple/main/shadow_demo_main.c`).
The coreJSON collaborator is modelled at its interface: a parsed document is
abstracted by whether `JSON_Validate` succeeds and by the numeric value that
`JSON_Search` followed by `strtoul` yields for each queried key, when present.
-/

/-- Abstraction of an `/update/delta` payload: `valid` is the `JSON_Validate`
outcome, `version` and `powerOn` the numeric values found for the keys
"version" and "state.powerOn" when the respective `JSON_Search` succeeds. -/
structure DeltaDocument where
  valid : Bool
  version : Option Nat
  powerOn : Option Nat
deriving DecidableEq, Repr

/-- The static module state touched by the shadow delta handler: the
`static` local `currentVersion` plus the globals `currentPowerOnState`,
`stateChanged` and `eventCallbackError`. -/
structure ShadowLocalState where
  currentVersion : Nat
  currentPowerOnState : Nat
  stateChanged : Bool
  eventCallbackError : Bool
deriving DecidableEq, Repr

/-- Function `updateDeltaHandler` (`fleet_prov_simple/main/shadow_demo_main.c`,
lines 468-586), translated statement by statement.  The locals `version`,
`newState`, `outValue` and `result` mirror the C locals; note that in the
stale-version branch the C code only logs a warning, leaving `result` and
`outValue` holding the outcome of the earlier "version" search. -/
def updateDeltaHandler (st : ShadowLocalState) (doc : DeltaDocument) :
    ShadowLocalState :=
  Id.run do
    let mut version : Nat := 0
    let mut newState : Nat := 0
    let mut outValue : Nat := 0
    let mut result : Bool := true
    let mut s := st
    if doc.valid then
      match doc.version with
      | some v =>
          result := true
          outValue := v
      | none => result := false
    else
      result := false
      s := { s with eventCallbackError := true }
    if result then
      version := outValue
    else
      s := { s with eventCallbackError := true }
    if version > s.currentVersion then
      s := { s with currentVersion := version }
      match doc.powerOn with
      | some p =>
          result := true
          outValue := p
      | none => result := false
    if result then
      newState := outValue
      if newState ≠ s.currentPowerOnState then
        s := { s with currentPowerOnState := newState, stateChanged := true }
    else
      s := { s with eventCallbackError := true }
    return s

/-- State of the delta handler after version 5 has been applied with
`powerOn = 1`. -/
def staleCaseState : ShadowLocalState :=
  { currentVersion := 5, currentPowerOnState := 1
    stateChanged := false, eventCallbackError := false }

/-- A stale delta document: version 3 (older than 5), powerOn 0. -/
def staleDeltaDoc : DeltaDocument :=
  { valid := true, version := some 3, powerOn := some 0 }

/-- C3: the spec claims a delta whose version is not strictly greater than the
highest applied version leaves `currentPowerOnState` unchanged.  In the source
the stale-version branch only logs a warning, so `result` still holds the
successful "version" search and `outValue` still points at the version digits;
the subsequent block then stores the message VERSION NUMBER into
`currentPowerOnState` and raises `stateChanged`.  With version 5 applied and
state 1, a stale delta carrying version 3 and powerOn 0 sets the local state
to 3. -/
theorem updateDeltaHandler_stale_version_mutates_state :
    updateDeltaHandler staleCaseState staleDeltaDoc
      = { currentVersion := 5, currentPowerOnState := 3
          stateChanged := true, eventCallbackError := false } := by
  rfl

/-- Abstraction of an `/update/accepted` payload: `valid` is the
`JSON_Validate` outcome, `clientToken` the numeric value found for the key
"clientToken" when the `JSON_Search` succeeds. -/
structure AcceptedDocument where
  valid : Bool
  clientToken : Option Nat
deriving DecidableEq, Repr

/-- The client token sent with a shadow update
(`clientToken = ( Clock_GetTimeMs() % 1000000 )` in `aws_iot_demo_main`). -/
def computeClientToken (clockTimeMs : Nat) : Nat :=
  clockTimeMs % 1000000

/-- Function `updateAcceptedHandler` (`fleet_prov_simple/main/shadow_demo_main.c`,
lines 590-674).  Returns the pair (confirmation, eventCallbackError): the
first component is `true` exactly when the branch logging "Previously
published update ... has been accepted" runs; a mismatched token takes the
`LogWarn` branch without touching the error flag, while an invalid document
or a missing "clientToken" key sets the error flag. -/
def updateAcceptedHandler (doc : AcceptedDocument) (sentToken : Nat)
    (errFlag : Bool) : Bool × Bool :=
  Id.run do
    let mut err := errFlag
    let mut result : Bool := true
    let mut receivedToken : Nat := 0
    let mut confirmed : Bool := false
    if doc.valid then
      match doc.clientToken with
      | some v =>
          result := true
          receivedToken := v
      | none => result := false
    else
      result := false
      err := true
    if result then
      if receivedToken = sentToken then
        confirmed := true
      else
        confirmed := false
    else
      err := true
    return (confirmed, err)

/-- C7: the client token is the monotonic clock sample reduced modulo 10^6,
and an update-accepted message with an echoed token is treated as
confirmation exactly when that token equals the most recently sent one; a
mismatched token is ignored (no confirmation) and leaves the error flag
untouched. -/
theorem updateAcceptedHandler_token_matching (doc : AcceptedDocument)
    (clockTimeMs tk : Nat) (errFlag : Bool) (hv : doc.valid = true)
    (htk : doc.clientToken = some tk) :
    computeClientToken clockTimeMs = clockTimeMs % 1000000 ∧
    computeClientToken clockTimeMs < 1000000 ∧
    ((updateAcceptedHandler doc (computeClientToken clockTimeMs) errFlag).1 = true
        ↔ tk = computeClientToken clockTimeMs) ∧
    (updateAcceptedHandler doc (computeClientToken clockTimeMs) errFlag).2 = errFlag := by
  refine ⟨rfl, Nat.mod_lt _ (by norm_num), ?_, ?_⟩
  · unfold updateAcceptedHandler
    simp only [Id.run, hv, htk]
    by_cases h : tk = computeClientToken clockTimeMs <;> simp [h]
  · unfold updateAcceptedHandler
    simp only [Id.run, hv, htk]
    by_cases h : tk = computeClientToken clockTimeMs <;> simp [h]

/-- Witness for the C7 theorem: clock sample 2000123, echoed token 123. -/
theorem updateAcceptedHandler_token_matching_witness :
    (⟨true, some 123⟩ : AcceptedDocument).valid = true ∧
    (⟨true, some 123⟩ : AcceptedDocument).clientToken = some 123 ∧
    (computeClientToken 2000123 < 1000000 ∧
      ((updateAcceptedHandler ⟨true, some 123⟩ (computeClientToken 2000123) false).1 = true
          ↔ 123 = computeClientToken 2000123)) :=
  ⟨rfl, rfl, (updateAcceptedHandler_token_matching ⟨true, some 123⟩ 2000123 123 false
      rfl rfl).2.1,
    (updateAcceptedHandler_token_matching ⟨true, some 123⟩ 2000123 123 false
      rfl rfl).2.2.1⟩

/-- Abstraction of a `/delete/rejected` payload: `valid` is the
`JSON_Validate` outcome, `code` the numeric value found for the key "code"
when the `JSON_Search` succeeds. -/
structure DeleteRejectedDocument where
  valid : Bool
  code : Option Nat
deriving DecidableEq, Repr

/-- Function `deleteRejectedHandler` (`fleet_prov_simple/main/shadow_demo_main.c`,
lines 403-464): extracts the error code (defaulting to 0 when the document is
invalid or has no "code" key) and marks `shadowDeleted` when it is 404. -/
def deleteRejectedHandler (doc : DeleteRejectedDocument)
    (shadowDeleted : Bool) : Bool :=
  Id.run do
    let mut errorCode : Nat := 0
    let mut result : Bool := true
    let mut deleted := shadowDeleted
    if doc.valid then
      match doc.code with
      | some v =>
          result := true
          errorCode := v
      | none => result := false
    else
      result := false
    if errorCode = 404 then
      deleted := true
    return deleted

/-- Type `ShadowMessageType_t`: the values the shadow event callback distinguishes. -/
inductive ShadowMessageType where
  | updateDelta
  | updateAccepted
  | updateDocuments
  | updateRejected
  | deleteAccepted
  | deleteRejected
  | otherMessage
deriving DecidableEq, Repr

/-- The shadow-delete flags set by the event callback. -/
structure DeleteFlags where
  shadowDeleted : Bool
  deleteResponseReceived : Bool
deriving DecidableEq, Repr

/-- The delete-topic dispatch of `eventCallback`
(`fleet_prov_simple/main/shadow_demo_main.c`, lines 738-749): an incoming
publish on `/delete/accepted` sets both flags; one on `/delete/rejected`
runs `deleteRejectedHandler` and records that a response arrived. -/
def handleShadowDeleteMessage (msgType : ShadowMessageType)
    (doc : DeleteRejectedDocument) (fl : DeleteFlags) : DeleteFlags :=
  match msgType with
  | .deleteAccepted => { shadowDeleted := true, deleteResponseReceived := true }
  | .deleteRejected =>
      { shadowDeleted := deleteRejectedHandler doc fl.shadowDeleted
        deleteResponseReceived := true }
  | _ => fl

/-- The post-delete checks of `aws_iot_demo_main`
(`fleet_prov_simple_nvs/main/shadow_demo_main.c`, lines 1086-1112): a missing
delete response or `shadowDeleted == false` marks the attempt failed. -/
def checkShadowDeleteStatus (returnStatus : Int) (fl : DeleteFlags) : Int :=
  Id.run do
    let mut r := returnStatus
    if r = EXIT_SUCCESS ∧ fl.deleteResponseReceived ≠ true then
      r := EXIT_FAILURE
    if r = EXIT_SUCCESS then
      if fl.shadowDeleted = false then
        r := EXIT_FAILURE
    return r

/-- C6: starting from cleared flags, the shadow delete is considered
successful (`shadowDeleted = true`) exactly when a delete-accepted message
arrives, or a delete-rejected message arrives whose valid payload carries
error code 404; a delete-rejected with code 500 leaves `shadowDeleted` false
and the post-delete check then marks the attempt failed. -/
theorem shadowDelete_success_iff (msgType : ShadowMessageType)
    (doc : DeleteRejectedDocument) :
    ((handleShadowDeleteMessage msgType doc
        { shadowDeleted := false, deleteResponseReceived := false }).shadowDeleted = true
      ↔ (msgType = .deleteAccepted ∨
          (msgType = .deleteRejected ∧ doc.valid = true ∧ doc.code = some 404))) ∧
    (msgType = .deleteRejected → doc.code = some 500 →
      (handleShadowDeleteMessage msgType doc
          { shadowDeleted := false, deleteResponseReceived := false }).shadowDeleted = false ∧
      checkShadowDeleteStatus EXIT_SUCCESS
        (handleShadowDeleteMessage msgType doc
          { shadowDeleted := false, deleteResponseReceived := false }) = EXIT_FAILURE) := by
  constructor
  · cases msgType <;>
      cases hv : doc.valid <;> cases hc : doc.code <;>
        simp_all [handleShadowDeleteMessage, deleteRejectedHandler, Id.run]
  · rintro rfl hc
    cases hv : doc.valid <;>
      simp_all [handleShadowDeleteMessage, deleteRejectedHandler,
        checkShadowDeleteStatus, Id.run, EXIT_SUCCESS, EXIT_FAILURE]

/-- Witness for the C6 theorem: delete-rejected carrying code 500. -/
theorem shadowDelete_success_iff_witness :
    ((handleShadowDeleteMessage .deleteRejected ⟨true, some 500⟩
        { shadowDeleted := false, deleteResponseReceived := false }).shadowDeleted = true
      ↔ (ShadowMessageType.deleteRejected = ShadowMessageType.deleteAccepted ∨
          (ShadowMessageType.deleteRejected = ShadowMessageType.deleteRejected ∧
            (⟨true, some 500⟩ : DeleteRejectedDocument).valid = true ∧
            (⟨true, some 500⟩ : DeleteRejectedDocument).code = some 404))) ∧
    ((handleShadowDeleteMessage .deleteRejected ⟨true, some 500⟩
        { shadowDeleted := false, deleteResponseReceived := false }).shadowDeleted = false ∧
      checkShadowDeleteStatus EXIT_SUCCESS
        (handleShadowDeleteMessage .deleteRejected ⟨true, some 500⟩
          { shadowDeleted := false, deleteResponseReceived := false }) = EXIT_FAILURE) :=
  ⟨(shadowDelete_success_iff .deleteRejected ⟨true, some 500⟩).1,
    (shadowDelete_success_iff .deleteRejected ⟨true, some 500⟩).2 rfl rfl⟩

/-!
tinyCBOR collaborator model and the CBOR serializer
(`fleet_prov_by_claim_pkcs11/main/fleet_provisioning_serializer.c`).
A decoded CBOR value is a text string (its byte content), a map (an ordered
association list from keys to values), or some other item type; a response is
either malformed (so `cbor_parser_init` fails) or a top-level item.
-/

/-- A decoded CBOR item at the granularity the serializer inspects. -/
inductive CborItem where
  | text (s : List Nat)
  | mapItem (entries : List (String × CborItem))
  | otherItem

/-- A received response payload: malformed bytes or a top-level CBOR item. -/
inductive CborResponse where
  | malformed
  | top (item : CborItem)

/-- Model of `cbor_value_map_find_value`: the value bound to `key` in the map, or
`none` (tinyCBOR reports `CborInvalidType` for the value) when absent. -/
def cborFindValue (entries : List (String × CborItem)) (key : String) :
    Option CborItem :=
  match entries with
  | [] => none
  | (k, v) :: rest => if k = key then some v else cborFindValue rest key

/-- Model of `cbor_value_copy_text_string` into a buffer of capacity `cap`: tinyCBOR
needs room for the string plus a terminating NUL, returning
`CborErrorOutOfMemory` (modelled as `none`) otherwise. -/
def cborCopyTextString (s : List Nat) (cap : Nat) : Option (List Nat) :=
  if s.length + 1 ≤ cap then some s else none

/-- One field block of `parseKeyCertResponse`: look the key up, and copy its
text content.  The first component is whether `cborRet` is still
`CborNoError` after the block: a missing key or a non-text value only logs
(tinyCBOR reported no error), while a failing copy sets `cborRet`.  The
second component is what was written to the output buffer. -/
def parseFieldStep (entries : List (String × CborItem)) (key : String)
    (cap : Nat) : Bool × Option (List Nat) :=
  match cborFindValue entries key with
  | none => (true, none)
  | some (CborItem.text s) =>
      match cborCopyTextString s cap with
      | some v => (true, some v)
      | none => (false, none)
  | some _ => (true, none)

/-- Result of `parseKeyCertResponse`: its boolean return value
(`cborRet == CborNoError`) and what was written into each output buffer. -/
structure KeyCertParseResult where
  success : Bool
  certificate : Option (List Nat)
  certificateId : Option (List Nat)
  ownershipToken : Option (List Nat)
  privateKey : Option (List Nat)

/-- Function `parseKeyCertResponse`
(`fleet_prov_by_claim_pkcs11/main/fleet_provisioning_serializer.c`,
lines 194-368): after `cbor_parser_init` and the map check, the four fields
certificatePem, certificateId, certificateOwnershipToken and privateKey are
extracted in order, each block guarded by `cborRet == CborNoError`.  Note
that a non-map response and a missing or wrongly-typed field leave `cborRet`
untouched, so only a malformed payload or a failing string copy makes the
function return false. -/
def parseKeyCertResponse (resp : CborResponse)
    (capCert capId capTok capKey : Nat) : KeyCertParseResult :=
  match resp with
  | .malformed => ⟨false, none, none, none, none⟩
  | .top (.text _) => ⟨true, none, none, none, none⟩
  | .top .otherItem => ⟨true, none, none, none, none⟩
  | .top (.mapItem entries) =>
      let r1 := parseFieldStep entries "certificatePem" capCert
      if r1.1 then
        let r2 := parseFieldStep entries "certificateId" capId
        if r2.1 then
          let r3 := parseFieldStep entries "certificateOwnershipToken" capTok
          if r3.1 then
            let r4 := parseFieldStep entries "privateKey" capKey
            ⟨r4.1, r1.2, r2.2, r3.2, r4.2⟩
          else ⟨false, r1.2, r2.2, r3.2, none⟩
        else ⟨false, r1.2, r2.2, none, none⟩
      else ⟨false, r1.2, none, none, none⟩

/-- Whether a field block leaves `cborRet` at `CborNoError`: true unless the
key is bound to a text string that does not fit its buffer. -/
def fieldOk (entries : List (String × CborItem)) (key : String) (cap : Nat) :
    Bool :=
  match cborFindValue entries key with
  | some (CborItem.text s) => s.length + 1 ≤ cap
  | _ => true

lemma parseFieldStep_fst (entries : List (String × CborItem)) (key : String)
    (cap : Nat) : (parseFieldStep entries key cap).1 = fieldOk entries key cap := by
  unfold parseFieldStep fieldOk cborCopyTextString
  cases h : cborFindValue entries key with
  | none => rfl
  | some item =>
      cases item with
      | text s =>
          by_cases hs : s.length + 1 ≤ cap <;> simp [hs]
      | mapItem es => rfl
      | otherItem => rfl

lemma parseFieldStep_snd_of_absent (entries : List (String × CborItem))
    (key : String) (cap : Nat) (h : cborFindValue entries key = none) :
    (parseFieldStep entries key cap).2 = none := by
  unfold parseFieldStep
  rw [h]

lemma parseFieldStep_snd_of_text (entries : List (String × CborItem))
    (key : String) (cap : Nat) (s : List Nat)
    (h : cborFindValue entries key = some (CborItem.text s))
    (hfit : s.length + 1 ≤ cap) :
    (parseFieldStep entries key cap).2 = some s := by
  unfold parseFieldStep
  rw [h]
  simp [cborCopyTextString, hfit]

/-- A well-formed map response in which certificateId, ownership token and
private key are present but certificatePem is absent. -/
def missingCertPemDoc : CborResponse :=
  CborResponse.top (CborItem.mapItem
    [("certificateId", CborItem.text [65]),
     ("certificateOwnershipToken", CborItem.text [66]),
     ("privateKey", CborItem.text [67])])

/-- C4 counterexample: the spec claims that a create-keys-accepted document
missing one of the four required fields makes `parseKeyCertResponse` return
failure.  On a valid map lacking "certificatePem" the lookup reports
`CborInvalidType`, the branch only logs, `cborRet` stays `CborNoError`, and
the function returns TRUE (with nothing written to the certificate buffer and
the other three fields extracted). -/
theorem parseKeyCertResponse_missing_field_returns_success :
    (parseKeyCertResponse missingCertPemDoc 2048 64 512 2048).success = true ∧
    (parseKeyCertResponse missingCertPemDoc 2048 64 512 2048).certificate = none ∧
    (parseKeyCertResponse missingCertPemDoc 2048 64 512 2048).certificateId = some [65] := by
  refine ⟨rfl, rfl, rfl⟩

lemma parseKeyCertResponse_certificate_eq (entries : List (String × CborItem))
    (capCert capId capTok capKey : Nat) :
    (parseKeyCertResponse (.top (.mapItem entries)) capCert capId capTok capKey).certificate
      = (parseFieldStep entries "certificatePem" capCert).2 := by
  simp only [parseKeyCertResponse]
  split_ifs <;> rfl

/-- C4 amended: `parseKeyCertResponse` on a well-formed map returns success
exactly when every field that is present as a text string fits its buffer —
a missing field is only logged and does not cause failure, and nothing is
written into its output buffer; when all four fields are present within
capacity, the call succeeds with all four buffers holding the field
contents. -/
theorem parseKeyCertResponse_semantics (entries : List (String × CborItem))
    (capCert capId capTok capKey : Nat) :
    ((parseKeyCertResponse (.top (.mapItem entries)) capCert capId capTok capKey).success
      = (fieldOk entries "certificatePem" capCert &&
          fieldOk entries "certificateId" capId &&
          fieldOk entries "certificateOwnershipToken" capTok &&
          fieldOk entries "privateKey" capKey)) ∧
    (cborFindValue entries "certificatePem" = none →
      (parseKeyCertResponse (.top (.mapItem entries)) capCert capId capTok capKey).certificate
        = none) ∧
    (∀ c i t k : List Nat,
      cborFindValue entries "certificatePem" = some (CborItem.text c) →
      cborFindValue entries "certificateId" = some (CborItem.text i) →
      cborFindValue entries "certificateOwnershipToken" = some (CborItem.text t) →
      cborFindValue entries "privateKey" = some (CborItem.text k) →
      c.length + 1 ≤ capCert → i.length + 1 ≤ capId →
      t.length + 1 ≤ capTok → k.length + 1 ≤ capKey →
      parseKeyCertResponse (.top (.mapItem entries)) capCert capId capTok capKey
        = ⟨true, some c, some i, some t, some k⟩) := by
  refine ⟨?_, ?_, ?_⟩
  · unfold parseKeyCertResponse
    simp only [parseFieldStep_fst]
    by_cases f1 : fieldOk entries "certificatePem" capCert <;>
      by_cases f2 : fieldOk entries "certificateId" capId <;>
        by_cases f3 : fieldOk entries "certificateOwnershipToken" capTok <;>
          simp [f1, f2, f3]
  · intro habs
    rw [parseKeyCertResponse_certificate_eq]
    exact parseFieldStep_snd_of_absent entries "certificatePem" capCert habs
  · intro c i t k hc hi ht hk hfc hfi hft hfk
    have h1 : parseFieldStep entries "certificatePem" capCert = (true, some c) := by
      unfold parseFieldStep
      rw [hc]
      simp [cborCopyTextString, hfc]
    have h2 : parseFieldStep entries "certificateId" capId = (true, some i) := by
      unfold parseFieldStep
      rw [hi]
      simp [cborCopyTextString, hfi]
    have h3 : parseFieldStep entries "certificateOwnershipToken" capTok = (true, some t) := by
      unfold parseFieldStep
      rw [ht]
      simp [cborCopyTextString, hft]
    have h4 : parseFieldStep entries "privateKey" capKey = (true, some k) := by
      unfold parseFieldStep
      rw [hk]
      simp [cborCopyTextString, hfk]
    simp [parseKeyCertResponse, h1, h2, h3, h4]

/-- Witness for the C4 amended theorem: all four fields present, one byte each. -/
theorem parseKeyCertResponse_semantics_witness :
    cborFindValue
        [("certificatePem", CborItem.text [1]), ("certificateId", CborItem.text [2]),
         ("certificateOwnershipToken", CborItem.text [3]), ("privateKey", CborItem.text [4])]
        "certificatePem" = some (CborItem.text [1]) ∧
    parseKeyCertResponse
        (.top (.mapItem
          [("certificatePem", CborItem.text [1]), ("certificateId", CborItem.text [2]),
           ("certificateOwnershipToken", CborItem.text [3]), ("privateKey", CborItem.text [4])]))
        2048 64 512 2048
      = ⟨true, some [1], some [2], some [3], some [4]⟩ :=
  ⟨rfl,
    (parseKeyCertResponse_semantics
        [("certificatePem", CborItem.text [1]), ("certificateId", CborItem.text [2]),
         ("certificateOwnershipToken", CborItem.text [3]), ("privateKey", CborItem.text [4])]
        2048 64 512 2048).2.2 [1] [2] [3] [4] rfl rfl rfl rfl
      (by norm_num) (by norm_num) (by norm_num) (by norm_num)⟩

/-- CBOR initial byte(s) for major type `major` with argument `n`
(definite-length header, as tinyCBOR emits for strings and maps). -/
def cborTypeHeader (major : Nat) (n : Nat) : List Nat :=
  if n < 24 then [32 * major + n]
  else if n < 256 then [32 * major + 24, n]
  else if n < 65536 then [32 * major + 25, n / 256, n % 256]
  else if n < 4294967296 then
    [32 * major + 26, n / 16777216 % 256, n / 65536 % 256, n / 256 % 256, n % 256]
  else
    [32 * major + 27, n / 72057594037927936 % 256, n / 281474976710656 % 256,
      n / 1099511627776 % 256, n / 4294967296 % 256, n / 16777216 % 256,
      n / 65536 % 256, n / 256 % 256, n % 256]

/-- The byte content of an ASCII key string. -/
def stringBytes (s : String) : List Nat :=
  s.data.map Char.toNat

/-- Encoding of a CBOR text string: major-type-3 header followed by the bytes
(`cbor_encode_text_string`). -/
def encodeTextString (s : List Nat) : List Nat :=
  cborTypeHeader 3 s.length ++ s

mutual

/-- Standard definite-length CBOR encoding of an item. -/
def encodeCborItem : CborItem → List Nat
  | .text s => encodeTextString s
  | .mapItem entries => cborTypeHeader 5 entries.length ++ encodeCborEntries entries
  | .otherItem => []

/-- Encoding of the key/value pairs of a CBOR map, in order. -/
def encodeCborEntries : List (String × CborItem) → List Nat
  | [] => []
  | (k, v) :: rest =>
      encodeTextString (stringBytes k) ++ encodeCborItem v ++ encodeCborEntries rest

end

/-- The structured RegisterThing request document: a two-entry map holding the
ownership token and a single-entry "parameters" map keyed "SerialNumber". -/
def registerThingDocument (token serial : List Nat) : CborItem :=
  CborItem.mapItem
    [("certificateOwnershipToken", CborItem.text token),
     ("parameters", CborItem.mapItem [("SerialNumber", CborItem.text serial)])]

/-- State of the tinyCBOR encoder over a destination buffer of fixed
capacity: the bytes emitted so far and whether an append has failed
(`CborErrorOutOfMemory`). -/
structure CborEncoderState where
  bytes : List Nat
  capacity : Nat
  failed : Bool

/-- One tinyCBOR append: once failed, stays failed (the C caller also
short-circuits on the first error); otherwise the bytes are emitted when they
fit the remaining buffer space and the append fails when they do not. -/
def encAppend (st : CborEncoderState) (bs : List Nat) : CborEncoderState :=
  if st.failed then st
  else if st.bytes.length + bs.length ≤ st.capacity then
    { st with bytes := st.bytes ++ bs }
  else { st with failed := true }

/-- Function `generateRegisterThingRequest`
(`fleet_prov_by_claim_pkcs11/main/fleet_provisioning_serializer.c`,
lines 111-190): opens a two-entry map, writes the
"certificateOwnershipToken" key and the token, the "parameters" key, a
nested one-entry map with key "SerialNumber" and the serial, then closes the
containers (which append nothing for definite-length maps).  On success it
reports the written bytes and their length; on any encoding error (out of
capacity) it returns failure. -/
def generateRegisterThingRequest (bufferLength : Nat) (token serial : List Nat) :
    Option (List Nat × Nat) :=
  let st0 : CborEncoderState := ⟨[], bufferLength, false⟩
  let st1 := encAppend st0 (cborTypeHeader 5 2)
  let st2 := encAppend st1 (encodeTextString (stringBytes "certificateOwnershipToken"))
  let st3 := encAppend st2 (encodeTextString token)
  let st4 := encAppend st3 (encodeTextString (stringBytes "parameters"))
  let st5 := encAppend st4 (cborTypeHeader 5 1)
  let st6 := encAppend st5 (encodeTextString (stringBytes "SerialNumber"))
  let st7 := encAppend st6 (encodeTextString serial)
  if st7.failed then none else some (st7.bytes, st7.bytes.length)

lemma encAppend_ok (st : CborEncoderState) (bs : List Nat)
    (h : st.failed = false) (hfit : st.bytes.length + bs.length ≤ st.capacity) :
    encAppend st bs = { st with bytes := st.bytes ++ bs } := by
  unfold encAppend
  simp [h, hfit]

lemma encAppend_capacity (st : CborEncoderState) (bs : List Nat) :
    (encAppend st bs).capacity = st.capacity := by
  unfold encAppend
  split_ifs <;> rfl

lemma encAppend_not_failed (st : CborEncoderState) (bs : List Nat)
    (h : (encAppend st bs).failed = false) :
    st.failed = false ∧ (encAppend st bs).bytes = st.bytes ++ bs ∧
      st.bytes.length + bs.length ≤ st.capacity := by
  unfold encAppend at h ⊢
  by_cases h0 : st.failed
  · simp [h0] at h
  · simp only [h0, if_false, Bool.false_eq_true]
    by_cases hfit : st.bytes.length + bs.length ≤ st.capacity
    · simp [hfit]
    · simp [h0, hfit] at h

/-- Folding a sequence of tinyCBOR appends. -/
def encAppendAll (st : CborEncoderState) (chunks : List (List Nat)) :
    CborEncoderState :=
  chunks.foldl encAppend st

lemma encAppendAll_ok (chunks : List (List Nat)) (st : CborEncoderState)
    (h0 : st.failed = false)
    (hfit : st.bytes.length + (chunks.map List.length).sum ≤ st.capacity) :
    encAppendAll st chunks = { st with bytes := st.bytes ++ chunks.flatten } := by
  induction chunks generalizing st with
  | nil =>
      simp [encAppendAll]
  | cons c rest ih =>
      have hc : st.bytes.length + c.length ≤ st.capacity := by
        simp only [List.map_cons, List.sum_cons] at hfit
        omega
      have hstep := encAppend_ok st c h0 hc
      unfold encAppendAll
      simp only [List.foldl_cons]
      rw [hstep]
      have := ih { st with bytes := st.bytes ++ c } (by simp [h0])
        (by
          simp only [List.map_cons, List.sum_cons, List.length_append] at hfit ⊢
          omega)
      unfold encAppendAll at this
      rw [this]
      simp [List.flatten]

lemma encAppendAll_failed (chunks : List (List Nat)) (st : CborEncoderState)
    (h : st.failed = true) : encAppendAll st chunks = st := by
  induction chunks generalizing st with
  | nil => rfl
  | cons c rest ih =>
      unfold encAppendAll
      simp only [List.foldl_cons]
      have : encAppend st c = st := by
        unfold encAppend
        simp [h]
      rw [this]
      exact ih st h

lemma encAppendAll_overflow (chunks : List (List Nat)) (st : CborEncoderState)
    (h0 : st.failed = false) (hinv : st.bytes.length ≤ st.capacity)
    (hov : st.capacity < st.bytes.length + (chunks.map List.length).sum) :
    (encAppendAll st chunks).failed = true := by
  induction chunks generalizing st with
  | nil =>
      simp only [List.map_nil, List.sum_nil, Nat.add_zero] at hov
      omega
  | cons c rest ih =>
      unfold encAppendAll
      simp only [List.foldl_cons]
      by_cases hc : st.bytes.length + c.length ≤ st.capacity
      · rw [encAppend_ok st c h0 hc]
        exact ih { st with bytes := st.bytes ++ c } (by simp [h0])
          (by simp only [List.length_append]; omega)
          (by
            simp only [List.map_cons, List.sum_cons, List.length_append] at hov ⊢
            omega)
      · have hfail : (encAppend st c).failed = true := by
          unfold encAppend
          simp [h0, hc]
        have := encAppendAll_failed rest (encAppend st c) hfail
        unfold encAppendAll at this
        rw [this]
        exact hfail

lemma generateRegisterThingRequest_as_fold (bufferLength : Nat)
    (token serial : List Nat) :
    generateRegisterThingRequest bufferLength token serial
      = (let st := encAppendAll ⟨[], bufferLength, false⟩
            [cborTypeHeader 5 2,
             encodeTextString (stringBytes "certificateOwnershipToken"),
             encodeTextString token,
             encodeTextString (stringBytes "parameters"),
             cborTypeHeader 5 1,
             encodeTextString (stringBytes "SerialNumber"),
             encodeTextString serial]
         if st.failed then none else some (st.bytes, st.bytes.length)) := rfl

lemma registerThingDocument_encoding (token serial : List Nat) :
    encodeCborItem (registerThingDocument token serial)
      = ([cborTypeHeader 5 2,
          encodeTextString (stringBytes "certificateOwnershipToken"),
          encodeTextString token,
          encodeTextString (stringBytes "parameters"),
          cborTypeHeader 5 1,
          encodeTextString (stringBytes "SerialNumber"),
          encodeTextString serial] : List (List Nat)).flatten := by
  simp [registerThingDocument, encodeCborItem, encodeCborEntries, List.flatten]

/-- C8: `generateRegisterThingRequest` emits exactly the CBOR encoding of the
two-entry map binding "certificateOwnershipToken" to the token bytes and
"parameters" to the single-entry map binding "SerialNumber" to the serial
bytes, reporting the number of bytes written, whenever that encoding fits the
destination buffer; when the buffer cannot hold the encoded form it fails
(tinyCBOR reports out-of-capacity). -/
theorem generateRegisterThingRequest_correct (bufferLength : Nat)
    (token serial : List Nat) :
    ((encodeCborItem (registerThingDocument token serial)).length ≤ bufferLength →
      generateRegisterThingRequest bufferLength token serial
        = some (encodeCborItem (registerThingDocument token serial),
            (encodeCborItem (registerThingDocument token serial)).length)) ∧
    (bufferLength < (encodeCborItem (registerThingDocument token serial)).length →
      generateRegisterThingRequest bufferLength token serial = none) := by
  constructor
  · intro h
    rw [registerThingDocument_encoding] at h ⊢
    rw [generateRegisterThingRequest_as_fold]
    have hok := encAppendAll_ok
      [cborTypeHeader 5 2,
       encodeTextString (stringBytes "certificateOwnershipToken"),
       encodeTextString token,
       encodeTextString (stringBytes "parameters"),
       cborTypeHeader 5 1,
       encodeTextString (stringBytes "SerialNumber"),
       encodeTextString serial]
      ⟨[], bufferLength, false⟩ rfl
      (by simpa [List.length_flatten] using h)
    simp only [hok]
    simp
  · intro h
    rw [registerThingDocument_encoding] at h
    rw [generateRegisterThingRequest_as_fold]
    have hov := encAppendAll_overflow
      [cborTypeHeader 5 2,
       encodeTextString (stringBytes "certificateOwnershipToken"),
       encodeTextString token,
       encodeTextString (stringBytes "parameters"),
       cborTypeHeader 5 1,
       encodeTextString (stringBytes "SerialNumber"),
       encodeTextString serial]
      ⟨[], bufferLength, false⟩ rfl (by simp)
      (by simpa [List.length_flatten] using h)
    simp only [hov]
    simp

/-- Witness for the C8 theorem: token byte 10, serial byte 20, buffer of 100
bytes (the encoded document is 45 bytes long). -/
theorem generateRegisterThingRequest_correct_witness :
    (encodeCborItem (registerThingDocument [10] [20])).length ≤ 100 ∧
    generateRegisterThingRequest 100 [10] [20]
      = some (encodeCborItem (registerThingDocument [10] [20]),
          (encodeCborItem (registerThingDocument [10] [20])).length) :=
  ⟨by decide, (generateRegisterThingRequest_correct 100 [10] [20]).1 (by decide)⟩

/-!
Trace model of the provisioning portion of `aws_iot_demo_main`
(`fleet_prov_simple_nvs/main/shadow_demo_main.c`, lines 779-1015).  Every
external call is an event; the environment fixes the result of each call.  Note
two peculiarities of this source, modelled faithfully: the `waitForResponse`
call after the CreateKeysAndCertificate publish is commented out (the parse
runs directly on `payloadBuffer`), and the NVS persistence block runs inside
the branch where `parseKeyCertResponse` succeeded — before RegisterThing.
-/

/-- Events of one provisioning attempt, in execution order. -/
inductive ProvEvent where
  | establishClaimSession (ok : Bool)
  | subscribeKeyCertTopics (ok : Bool)
  | publishCreateKeys (ok : Bool)
  | parseKeyCert (ok : Bool)
  | nvsOpen (ok : Bool)
  | nvsWriteCredentials
  | nvsCommit
  | unsubscribeKeyCertTopics (ok : Bool)
  | generateRegisterRequest (ok : Bool)
  | subscribeRegisterTopics (ok : Bool)
  | publishRegister (ok : Bool)
  | waitRegisterResponse (outcome : ResponseStatus)
  | parseThingName (ok : Bool)
  | unsubscribeRegisterTopics (ok : Bool)
  | disconnectSession (ok : Bool)
deriving DecidableEq, Repr

/-- Results of the external calls made during one provisioning attempt. -/
structure ProvEnv where
  establishOk : Bool
  subscribeKeyOk : Bool
  publishCreateOk : Bool
  parseKeyCertOk : Bool
  nvsOpenOk : Bool
  unsubscribeKeyOk : Bool
  generateRequestOk : Bool
  subscribeRegisterOk : Bool
  publishRegisterOk : Bool
  registerOutcome : ResponseStatus
  parseThingNameOk : Bool
  unsubscribeRegisterOk : Bool
  disconnectOk : Bool
deriving DecidableEq, Repr

/-- First half of the provisioning portion of `aws_iot_demo_main`
(`fleet_prov_simple_nvs/main/shadow_demo_main.c`, lines 789-977): from the
claim connection through waiting for the RegisterThing response, with each
step gated by `returnStatus == EXIT_SUCCESS` exactly as in the source.
Returns the events performed, `returnStatus` and `connectionEstablished`. -/
def provisioningPhase1 (establishOk subscribeKeyOk publishCreateOk parseKeyCertOk
    nvsOpenOk unsubscribeKeyOk generateRequestOk subscribeRegisterOk
    publishRegisterOk : Bool) (registerOutcome : ResponseStatus) :
    List ProvEvent × Int × Bool :=
  let events : List ProvEvent := [ProvEvent.establishClaimSession establishOk]
  let returnStatus : Int := if establishOk then EXIT_SUCCESS else EXIT_FAILURE
  let connectionEstablished : Bool := establishOk
  let (events, returnStatus) :=
    if returnStatus = EXIT_SUCCESS then
      (events ++ [ProvEvent.subscribeKeyCertTopics subscribeKeyOk],
        if subscribeKeyOk then EXIT_SUCCESS else EXIT_FAILURE)
    else (events, returnStatus)
  let (events, returnStatus) :=
    if returnStatus = EXIT_SUCCESS then
      (events ++ [ProvEvent.publishCreateKeys publishCreateOk],
        if publishCreateOk then EXIT_SUCCESS else EXIT_FAILURE)
    else (events, returnStatus)
  let (events, returnStatus) :=
    if returnStatus = EXIT_SUCCESS then
      (if parseKeyCertOk then
        (events ++ [ProvEvent.parseKeyCert true, ProvEvent.nvsOpen nvsOpenOk]
            ++ (if nvsOpenOk then
                  [ProvEvent.nvsWriteCredentials, ProvEvent.nvsCommit]
                else []),
          EXIT_SUCCESS)
      else (events ++ [ProvEvent.parseKeyCert false], returnStatus))
    else (events, returnStatus)
  let (events, returnStatus) :=
    if returnStatus = EXIT_SUCCESS then
      (events ++ [ProvEvent.unsubscribeKeyCertTopics unsubscribeKeyOk],
        if unsubscribeKeyOk then EXIT_SUCCESS else EXIT_FAILURE)
    else (events, returnStatus)
  let (events, returnStatus) :=
    if returnStatus = EXIT_SUCCESS then
      (events ++ [ProvEvent.generateRegisterRequest generateRequestOk],
        returnStatus)
    else (events, returnStatus)
  let (events, returnStatus) :=
    if returnStatus = EXIT_SUCCESS then
      (events ++ [ProvEvent.subscribeRegisterTopics subscribeRegisterOk],
        if subscribeRegisterOk then EXIT_SUCCESS else EXIT_FAILURE)
    else (events, returnStatus)
  let (events, returnStatus) :=
    if returnStatus = EXIT_SUCCESS then
      (events ++ [ProvEvent.publishRegister publishRegisterOk],
        if publishRegisterOk then EXIT_SUCCESS else EXIT_FAILURE)
    else (events, returnStatus)
  let (events, returnStatus) :=
    if returnStatus = EXIT_SUCCESS then
      (events ++ [ProvEvent.waitRegisterResponse registerOutcome], EXIT_SUCCESS)
    else (events, returnStatus)
  (events, returnStatus, connectionEstablished)

/-- Second half of the provisioning portion of `aws_iot_demo_main`
(`fleet_prov_simple_nvs/main/shadow_demo_main.c`, lines 979-1015): extracting
the Thing name, unsubscribing from the RegisterThing topics and disconnecting
the claim session. -/
def provisioningPhase2 (parseThingNameOk unsubscribeRegisterOk disconnectOk : Bool)
    (st : List ProvEvent × Int × Bool) : List ProvEvent × Int :=
  let (events, returnStatus, connectionEstablished) := st
  let (events, returnStatus) :=
    if returnStatus = EXIT_SUCCESS then
      (events ++ [ProvEvent.parseThingName parseThingNameOk], returnStatus)
    else (events, returnStatus)
  let (events, returnStatus) :=
    if returnStatus = EXIT_SUCCESS then
      (events ++ [ProvEvent.unsubscribeRegisterTopics unsubscribeRegisterOk],
        if unsubscribeRegisterOk then EXIT_SUCCESS else EXIT_FAILURE)
    else (events, returnStatus)
  let (events, returnStatus) :=
    if connectionEstablished then
      (events ++ [ProvEvent.disconnectSession disconnectOk],
        if disconnectOk then EXIT_SUCCESS else EXIT_FAILURE)
    else (events, returnStatus)
  (events, returnStatus)

/-- Provisioning portion of `aws_iot_demo_main`
(`fleet_prov_simple_nvs/main/shadow_demo_main.c`): the sequence of external
calls performed and the resulting `returnStatus`. -/
def aws_iot_demo_main_provisioning (env : ProvEnv) : List ProvEvent × Int :=
  provisioningPhase2 env.parseThingNameOk env.unsubscribeRegisterOk env.disconnectOk
    (provisioningPhase1 env.establishOk env.subscribeKeyOk env.publishCreateOk
      env.parseKeyCertOk env.nvsOpenOk env.unsubscribeKeyOk env.generateRequestOk
      env.subscribeRegisterOk env.publishRegisterOk env.registerOutcome)

/-- Whether an event is a write to persistent storage. -/
def isPersistenceEvent : ProvEvent → Bool
  | ProvEvent.nvsWriteCredentials => true
  | ProvEvent.nvsCommit => true
  | _ => false

/-- The claimed invariant as a trace check: every persistence event is
preceded by a `waitRegisterResponse` event with outcome accepted. -/
def persistOnlyAfterRegistration : List ProvEvent → Bool → Bool
  | [], _ => true
  | e :: rest, seen =>
      match e with
      | ProvEvent.waitRegisterResponse ResponseStatus.accepted =>
          persistOnlyAfterRegistration rest true
      | _ =>
          if isPersistenceEvent e then
            seen && persistOnlyAfterRegistration rest seen
          else
            persistOnlyAfterRegistration rest seen

/-- The environment in which every external call succeeds and the
RegisterThing response is accepted. -/
def envAllSuccess : ProvEnv :=
  { establishOk := true, subscribeKeyOk := true, publishCreateOk := true
    parseKeyCertOk := true, nvsOpenOk := true, unsubscribeKeyOk := true
    generateRequestOk := true, subscribeRegisterOk := true
    publishRegisterOk := true, registerOutcome := ResponseStatus.accepted
    parseThingNameOk := true, unsubscribeRegisterOk := true, disconnectOk := true }

/-- C1 counterexample: even in the fully successful execution the NVS
credential writes happen before the RegisterThing response is waited on, so a
persistence call precedes the successful registration. -/
theorem persistence_precedes_registration :
    persistOnlyAfterRegistration
        (aws_iot_demo_main_provisioning envAllSuccess).1 false = false ∧
    (aws_iot_demo_main_provisioning envAllSuccess).1
      = [ProvEvent.establishClaimSession true,
         ProvEvent.subscribeKeyCertTopics true,
         ProvEvent.publishCreateKeys true,
         ProvEvent.parseKeyCert true,
         ProvEvent.nvsOpen true,
         ProvEvent.nvsWriteCredentials,
         ProvEvent.nvsCommit,
         ProvEvent.unsubscribeKeyCertTopics true,
         ProvEvent.generateRegisterRequest true,
         ProvEvent.subscribeRegisterTopics true,
         ProvEvent.publishRegister true,
         ProvEvent.waitRegisterResponse ResponseStatus.accepted,
         ProvEvent.parseThingName true,
         ProvEvent.unsubscribeRegisterTopics true,
         ProvEvent.disconnectSession true] := by
  refine ⟨rfl, rfl⟩

deriving instance Fintype for ResponseStatus

/-- The environment record is equivalent to a product of its fields. -/
def provEnvEquivProd : ProvEnv ≃
    Bool × Bool × Bool × Bool × Bool × Bool × Bool × Bool × Bool ×
      ResponseStatus × Bool × Bool × Bool where
  toFun e := (e.establishOk, e.subscribeKeyOk, e.publishCreateOk, e.parseKeyCertOk,
    e.nvsOpenOk, e.unsubscribeKeyOk, e.generateRequestOk, e.subscribeRegisterOk,
    e.publishRegisterOk, e.registerOutcome, e.parseThingNameOk,
    e.unsubscribeRegisterOk, e.disconnectOk)
  invFun p := ⟨p.1, p.2.1, p.2.2.1, p.2.2.2.1, p.2.2.2.2.1, p.2.2.2.2.2.1,
    p.2.2.2.2.2.2.1, p.2.2.2.2.2.2.2.1, p.2.2.2.2.2.2.2.2.1,
    p.2.2.2.2.2.2.2.2.2.1, p.2.2.2.2.2.2.2.2.2.2.1,
    p.2.2.2.2.2.2.2.2.2.2.2.1, p.2.2.2.2.2.2.2.2.2.2.2.2⟩
  left_inv e := rfl
  right_inv p := rfl

instance : Fintype ProvEnv :=
  Fintype.ofEquiv _ provEnvEquivProd.symm

/-- Whether an event belongs to the RegisterThing exchange. -/
def isRegisterActivity : ProvEvent → Bool
  | ProvEvent.publishRegister _ => true
  | ProvEvent.waitRegisterResponse _ => true
  | _ => false

/-- Trace check: no persistence event occurs at or after any RegisterThing
activity (the flag records whether register activity has been seen). -/
def noPersistAfterRegisterActivity : List ProvEvent → Bool → Bool
  | [], _ => true
  | e :: rest, seen =>
      if isPersistenceEvent e then
        !seen && noPersistAfterRegisterActivity rest (seen || isRegisterActivity e)
      else
        noPersistAfterRegisterActivity rest (seen || isRegisterActivity e)

/-- Trace check: every persistence event is preceded by a successful
`parseKeyCertResponse` (the flag records whether one has been seen). -/
def persistOnlyAfterParseSuccess : List ProvEvent → Bool → Bool
  | [], _ => true
  | e :: rest, seen =>
      if isPersistenceEvent e then
        seen && persistOnlyAfterParseSuccess rest
          (seen || e == ProvEvent.parseKeyCert true)
      else
        persistOnlyAfterParseSuccess rest (seen || e == ProvEvent.parseKeyCert true)

/-- Whether a list of events contains no persistence call. -/
def noPersistIn (ys : List ProvEvent) : Bool :=
  ys.all (fun e => !isPersistenceEvent e)

lemma noPersistAfterRegisterActivity_of_noPersist (ys : List ProvEvent)
    (h : noPersistIn ys = true) (b : Bool) :
    noPersistAfterRegisterActivity ys b = true := by
  induction ys generalizing b with
  | nil => rfl
  | cons e rest ih =>
      unfold noPersistIn at h
      simp only [List.all_cons, Bool.and_eq_true, Bool.not_eq_true'] at h
      unfold noPersistAfterRegisterActivity
      rw [h.1]
      simp only [if_false, Bool.false_eq_true]
      exact ih (by simpa [noPersistIn] using h.2) _

lemma noPersistAfterRegisterActivity_append (xs ys : List ProvEvent)
    (h : noPersistIn ys = true) (b : Bool) :
    noPersistAfterRegisterActivity (xs ++ ys) b
      = noPersistAfterRegisterActivity xs b := by
  induction xs generalizing b with
  | nil =>
      simp only [List.nil_append]
      rw [noPersistAfterRegisterActivity_of_noPersist ys h b]
      rfl
  | cons e rest ih =>
      simp only [List.cons_append]
      unfold noPersistAfterRegisterActivity
      by_cases hp : isPersistenceEvent e
      · rw [if_pos hp, if_pos hp, ih]
      · rw [if_neg hp, if_neg hp, ih]

lemma persistOnlyAfterParseSuccess_of_noPersist (ys : List ProvEvent)
    (h : noPersistIn ys = true) (b : Bool) :
    persistOnlyAfterParseSuccess ys b = true := by
  induction ys generalizing b with
  | nil => rfl
  | cons e rest ih =>
      unfold noPersistIn at h
      simp only [List.all_cons, Bool.and_eq_true, Bool.not_eq_true'] at h
      unfold persistOnlyAfterParseSuccess
      rw [h.1]
      simp only [if_false, Bool.false_eq_true]
      exact ih (by simpa [noPersistIn] using h.2) _

lemma persistOnlyAfterParseSuccess_append (xs ys : List ProvEvent)
    (h : noPersistIn ys = true) (b : Bool) :
    persistOnlyAfterParseSuccess (xs ++ ys) b
      = persistOnlyAfterParseSuccess xs b := by
  induction xs generalizing b with
  | nil =>
      simp only [List.nil_append]
      rw [persistOnlyAfterParseSuccess_of_noPersist ys h b]
      rfl
  | cons e rest ih =>
      simp only [List.cons_append]
      unfold persistOnlyAfterParseSuccess
      by_cases hp : isPersistenceEvent e
      · rw [if_pos hp, if_pos hp, ih]
      · rw [if_neg hp, if_neg hp, ih]

lemma provisioningPhase2_events (b1 b2 b3 : Bool) (st : List ProvEvent × Int × Bool) :
    ∃ ys, (provisioningPhase2 b1 b2 b3 st).1 = st.1 ++ ys ∧ noPersistIn ys = true := by
  obtain ⟨es, rs, conn⟩ := st
  by_cases h1 : rs = EXIT_SUCCESS
  · by_cases hc : conn = true
    · refine ⟨[ProvEvent.parseThingName b1, ProvEvent.unsubscribeRegisterTopics b2,
        ProvEvent.disconnectSession b3], ?_, rfl⟩
      simp [provisioningPhase2, h1, hc]
    · refine ⟨[ProvEvent.parseThingName b1,
        ProvEvent.unsubscribeRegisterTopics b2], ?_, rfl⟩
      simp [provisioningPhase2, h1, hc]
  · by_cases hc : conn = true
    · refine ⟨[ProvEvent.disconnectSession b3], ?_, rfl⟩
      simp [provisioningPhase2, h1, hc]
    · refine ⟨[], ?_, rfl⟩
      simp [provisioningPhase2, h1, hc]

set_option maxRecDepth 8000

set_option maxHeartbeats 2000000

lemma provisioningPhase1_scans :
    ∀ (a1 a2 a3 a4 a5 a6 a7 a8 a9 : Bool) (r : ResponseStatus),
      noPersistAfterRegisterActivity
          (provisioningPhase1 a1 a2 a3 a4 a5 a6 a7 a8 a9 r).1 false = true ∧
      persistOnlyAfterParseSuccess
          (provisioningPhase1 a1 a2 a3 a4 a5 a6 a7 a8 a9 r).1 false = true := by
  decide

/-- C1 amended: in every execution of the provisioning workflow, credentials
are persisted (if at all) immediately after the create-keys response parses
successfully and strictly before any RegisterThing activity — the workflow
never waits for the registration result before writing to NVS. -/
theorem persistence_position_in_every_execution :
    ∀ env : ProvEnv,
      noPersistAfterRegisterActivity (aws_iot_demo_main_provisioning env).1 false = true ∧
      persistOnlyAfterParseSuccess (aws_iot_demo_main_provisioning env).1 false = true := by
  intro env
  obtain ⟨ys, hys, hno⟩ := provisioningPhase2_events env.parseThingNameOk
    env.unsubscribeRegisterOk env.disconnectOk
    (provisioningPhase1 env.establishOk env.subscribeKeyOk env.publishCreateOk
      env.parseKeyCertOk env.nvsOpenOk env.unsubscribeKeyOk env.generateRequestOk
      env.subscribeRegisterOk env.publishRegisterOk env.registerOutcome)
  constructor
  · unfold aws_iot_demo_main_provisioning
    rw [hys, noPersistAfterRegisterActivity_append _ _ hno]
    exact (provisioningPhase1_scans env.establishOk env.subscribeKeyOk
      env.publishCreateOk env.parseKeyCertOk env.nvsOpenOk env.unsubscribeKeyOk
      env.generateRequestOk env.subscribeRegisterOk env.publishRegisterOk
      env.registerOutcome).1
  · unfold aws_iot_demo_main_provisioning
    rw [hys, persistOnlyAfterParseSuccess_append _ _ hno]
    exact (provisioningPhase1_scans env.establishOk env.subscribeKeyOk
      env.publishCreateOk env.parseKeyCertOk env.nvsOpenOk env.unsubscribeKeyOk
      env.generateRequestOk env.subscribeRegisterOk env.publishRegisterOk
      env.registerOutcome).2

/-!
Top-level retry loop.  `fleet_prov_simple/main/shadow_demo_main.c` (and the
pkcs11 demo) wrap one workflow attempt in
`do { ... } while( returnStatus != EXIT_SUCCESS );` — the body repeats until
an attempt returns `EXIT_SUCCESS`, with no attempt counter and no delay call
in the loop; the `FLEET_PROV_MAX_DEMO_LOOP_COUNT` (3) and
`DELAY_BETWEEN_DEMO_RETRY_ITERATIONS_SECONDS` (5) macros are defined but
never referenced.  The NVS variant instead uses `do { ... } while ( 0 )`.
-/

/-- The value of the (unused) `FLEET_PROV_MAX_DEMO_LOOP_COUNT` macro. -/
def FLEET_PROV_MAX_DEMO_LOOP_COUNT : Nat := 3

/-- The value of the (unused) `DELAY_BETWEEN_DEMO_RETRY_ITERATIONS_SECONDS`
macro. -/
def DELAY_BETWEEN_DEMO_RETRY_ITERATIONS_SECONDS : Nat := 5

/-- The `do { attempt } while( returnStatus != EXIT_SUCCESS )` loop of
`aws_iot_demo_main` in the `fleet_prov_simple` and pkcs11 demos:
`attemptResult i` is the `returnStatus` of the i-th body execution (0-based).
Fuel bounds the modelled unrolling only; the result is the total number of
attempts performed when the loop exits within the fuel. -/
def demoLoopRun (attemptResult : Nat → Int) : Nat → Nat → Option Nat
  | 0, _ => none
  | fuel + 1, i =>
      if attemptResult i = EXIT_SUCCESS then some (i + 1)
      else demoLoopRun attemptResult fuel (i + 1)

/-- The `do { ... } while ( 0 )` loop of the NVS variant: the body runs
exactly once, whatever its result. -/
def demoLoopRunNvs (attemptResult : Nat → Int) : Nat :=
  let _ := attemptResult 0
  1

/-- An attempt-result environment whose first five attempts fail. -/
def failFirstFive : Nat → Int :=
  fun i => if i < 5 then EXIT_FAILURE else EXIT_SUCCESS

/-- C5 counterexample: the spec claims the loop re-attempts the workflow at
most `FLEET_PROV_MAX_DEMO_LOOP_COUNT = 3` times and stops when the bound is
exhausted.  With five failing attempts the loop keeps going and performs six
attempts — more than the claimed bound — because the source loops on
`returnStatus != EXIT_SUCCESS` alone and never consults the macro. -/
theorem demoLoop_exceeds_claimed_bound :
    demoLoopRun failFirstFive 10 0 = some 6 ∧
    FLEET_PROV_MAX_DEMO_LOOP_COUNT < 6 := by
  refine ⟨by decide, by decide⟩

/-- C5 amended: the retry loop repeats the entire workflow until an attempt
succeeds: whenever it exits it has executed exactly the attempts up to and
including the first successful one (so the attempt count is unbounded —
for every n there is an environment making the loop run n+1 attempts), and
the loop body contains no delay between attempts. -/
theorem demoLoop_runs_until_first_success :
    (∀ (attemptResult : Nat → Int) (fuel i k : Nat),
        demoLoopRun attemptResult fuel i = some k →
        i < k ∧ attemptResult (k - 1) = EXIT_SUCCESS ∧
          ∀ j, i ≤ j → j < k - 1 → attemptResult j ≠ EXIT_SUCCESS) ∧
    (∀ n : Nat,
        demoLoopRun (fun j => if j < n then EXIT_FAILURE else EXIT_SUCCESS)
          (n + 1) 0 = some (n + 1)) := by
  constructor
  · intro attemptResult fuel
    induction fuel with
    | zero => intro i k h; simp [demoLoopRun] at h
    | succ m ih =>
        intro i k h
        unfold demoLoopRun at h
        by_cases hs : attemptResult i = EXIT_SUCCESS
        · simp only [hs, if_pos] at h
          have hk : k = i + 1 := by
            cases h
            rfl
          subst hk
          refine ⟨Nat.lt_succ_self i, by simpa using hs, ?_⟩
          intro j hij hjk
          omega
        · simp only [hs, if_neg, if_false] at h
          obtain ⟨h1, h2, h3⟩ := ih (i + 1) k h
          refine ⟨by omega, h2, ?_⟩
          intro j hij hjk
          by_cases hji : j = i
          · subst hji; exact hs
          · exact h3 j (by omega) hjk
  · intro n
    induction n with
    | zero => rfl
    | succ m ih =>
        have step : demoLoopRun
            (fun j => if j < m + 1 then EXIT_FAILURE else EXIT_SUCCESS)
            (m + 2) 0
          = demoLoopRun
              (fun j => if j < m + 1 then EXIT_FAILURE else EXIT_SUCCESS)
              (m + 1) (0 + 1) := by
          show (if (if 0 < m + 1 then EXIT_FAILURE else EXIT_SUCCESS) = EXIT_SUCCESS
                  then some (0 + 1)
                  else demoLoopRun
                    (fun j => if j < m + 1 then EXIT_FAILURE else EXIT_SUCCESS)
                    (m + 1) (0 + 1)) = _
          rw [if_pos (show 0 < m + 1 by omega),
            if_neg (show ¬(EXIT_FAILURE = EXIT_SUCCESS) by decide)]
        have shift : ∀ fuel i, i ≤ m →
            demoLoopRun (fun j => if j < m + 1 then EXIT_FAILURE else EXIT_SUCCESS)
              fuel (i + 1)
            = (demoLoopRun (fun j => if j < m then EXIT_FAILURE else EXIT_SUCCESS)
                fuel i).map (· + 1) := by
          intro fuel
          induction fuel with
          | zero => intro i _; rfl
          | succ f ihf =>
              intro i hi
              show (if (if i + 1 < m + 1 then EXIT_FAILURE else EXIT_SUCCESS)
                      = EXIT_SUCCESS
                      then some (i + 1 + 1)
                      else demoLoopRun
                        (fun j => if j < m + 1 then EXIT_FAILURE else EXIT_SUCCESS)
                        f (i + 1 + 1))
                  = (if (if i < m then EXIT_FAILURE else EXIT_SUCCESS) = EXIT_SUCCESS
                      then some (i + 1)
                      else demoLoopRun
                        (fun j => if j < m then EXIT_FAILURE else EXIT_SUCCESS)
                        f (i + 1)).map (· + 1)
              by_cases hc : i < m
              · rw [if_pos (show i + 1 < m + 1 by omega), if_pos hc,
                  if_neg (show ¬(EXIT_FAILURE = EXIT_SUCCESS) by decide),
                  if_neg (show ¬(EXIT_FAILURE = EXIT_SUCCESS) by decide)]
                exact ihf (i + 1) (by omega)
              · have him : i = m := by omega
                rw [him, if_neg (show ¬(m + 1 < m + 1) by omega),
                  if_neg (show ¬(m < m) by omega), if_pos rfl, if_pos rfl]
                rfl
        rw [step, shift (m + 1) 0 (by omega), ih]
        rfl

/-- Witness for the C5 amended theorem at a concrete run: with the first five
attempts failing, the loop exits after attempt 6, and attempt 6 - 1 (0-based
index 5) is the first successful one. -/
theorem demoLoop_runs_until_first_success_witness :
    (0 : Nat) < 6 ∧ failFirstFive (6 - 1) = EXIT_SUCCESS :=
  ⟨(demoLoop_runs_until_first_success.1 failFirstFive 10 0 6 (by decide)).1,
    (demoLoop_runs_until_first_success.1 failFirstFive 10 0 6 (by decide)).2.1⟩
